import Mathlib

/-!
Verification of the Card Registration/Update Engine
(`src/server/src/vaultRegistrar.js`) against its specification.

Strings from the JavaScript source are modelled as lists of characters
(`Str`); rows read from a spreadsheet/CSV are string-keyed association
lists; the filesystem of photo files is an association list from file
name to the base64 encoding of the file bytes; the network is an oracle
from row index to an HTTP outcome (a status/body response, or a thrown
network error).  Logging is side-effect only and is not modelled, except
that the per-row terminal outcome (success / failed / skipped) and the
transcript of issued `postAddCard` requests are kept as ghost fields of
the result so that per-row properties can be stated.
-/

/-- JavaScript strings, modelled as lists of characters. -/
abbrev Str := List Char

/-- Does `s` begin with `p`?  (Used to model substring scanning.) -/
def listStartsWith : Str → Str → Bool
  | [], _ => true
  | _ :: _, [] => false
  | p :: ps, c :: cs => p == c && listStartsWith ps cs

/-- First value bound to `key` in an association list (JS object lookup;
object keys are unique, so first match suffices). -/
def assocLookup : List (Str × Str) → Str → Option Str
  | [], _ => none
  | (k, v) :: rest, key => if k = key then some v else assocLookup rest key

/-- The WhiteSpace/LineTerminator set trimmed by JS `String.prototype.trim`
and by `Number()` string conversion. -/
def jsWhite (c : Char) : Bool :=
  c == ' ' || c == '\t' || c == '\n' || c == '\r' || c == '\x0b' || c == '\x0c' ||
  c == Char.ofNat 0xa0 || c == Char.ofNat 0x1680 ||
  (decide (Char.ofNat 0x2000 ≤ c) && decide (c ≤ Char.ofNat 0x200a)) ||
  c == Char.ofNat 0x2028 || c == Char.ofNat 0x2029 || c == Char.ofNat 0x202f ||
  c == Char.ofNat 0x205f || c == Char.ofNat 0x3000 || c == Char.ofNat 0xfeff

/-- JS `String.prototype.trim`. -/
def trimJsWhite (s : Str) : Str :=
  ((s.dropWhile jsWhite).reverse.dropWhile jsWhite).reverse

/-- JS `String.prototype.toLowerCase` (the engine only compares ASCII values). -/
def jsLower (s : Str) : Str := s.map Char.toLower

/-- JS `a || b` on two strings: `b` when `a` is empty (falsy), else `a`. -/
def jsOrStr (a b : Str) : Str := if a = [] then b else a

/-- JS regex line terminators (`.` without the `s` flag does not match these). -/
def lineTermChar (c : Char) : Bool :=
  c == '\n' || c == '\r' || c == Char.ofNat 0x2028 || c == Char.ofNat 0x2029

/-- Lazy tail of a JS regex match `OPEN(.*?)CLOSE` once OPEN matched: the
shortest run of non-line-terminator characters followed by `closeT`.
Returns the captured group. -/
def matchTagAt (closeT : Str) : Str → Option Str
  | [] => if listStartsWith closeT [] then some [] else none
  | c :: rest =>
    if listStartsWith closeT (c :: rest) then some []
    else if lineTermChar c then none
    else (matchTagAt closeT rest).map (fun g => c :: g)

/-- Model of JS `text.match(/OPEN(.*?)CLOSE/)` returning the captured group:
the match starts at the leftmost position where `openT` occurs and can be
completed, and the group is the lazy (shortest) completion. -/
def regexExtract (openT closeT : Str) : Str → Option Str
  | [] => none
  | c :: rest =>
    if listStartsWith openT (c :: rest) then
      match matchTagAt closeT ((c :: rest).drop openT.length) with
      | some g => some g
      | none => regexExtract openT closeT rest
    else regexExtract openT closeT rest

/-- `text.match(/<TAG>(.*?)<\/TAG>/)` — the tolerant tag scan used by
`postAddCard` on the SOAP response body. -/
def extractTag (tag : String) (text : Str) : Option Str :=
  regexExtract ("<" ++ tag ++ ">").toList ("</" ++ tag ++ ">").toList text

/-- The value of JS `Number(string)`: NaN, a signed infinity, or an exact
rational value.  (Exact rationals: the IEEE-754 rounding JS applies to
extreme decimal expansions is not modelled; the values the engine compares
against, 0 and 1, are exact.) -/
inductive JsNum where
  | nan : JsNum
  | inf : Bool → JsNum
  | val : ℚ → JsNum
deriving DecidableEq

/-- Decimal digit value. -/
def digitVal (c : Char) : Option Nat :=
  if '0' ≤ c ∧ c ≤ '9' then some (c.toNat - '0'.toNat) else none

/-- Hexadecimal digit value. -/
def hexDigitVal (c : Char) : Option Nat :=
  if '0' ≤ c ∧ c ≤ '9' then some (c.toNat - '0'.toNat)
  else if 'a' ≤ c ∧ c ≤ 'f' then some (c.toNat - 'a'.toNat + 10)
  else if 'A' ≤ c ∧ c ≤ 'F' then some (c.toNat - 'A'.toNat + 10)
  else none

/-- A nonempty all-decimal-digit string as a natural number. -/
def parseDigitsStrict (s : Str) : Option Nat :=
  if s = [] then none
  else s.foldl (fun acc c => match acc, digitVal c with
    | some n, some d => some (n * 10 + d)
    | _, _ => none) (some 0)

/-- A nonempty digit string in the given radix (digits below the radix). -/
def parseRadixDigits (radix : Nat) (s : Str) : Option Nat :=
  if s = [] then none
  else s.foldl (fun acc c => match acc, hexDigitVal c with
    | some n, some d => if d < radix then some (n * radix + d) else none
    | _, _ => none) (some 0)

/-- Split at the first occurrence of `ch`: (before, rest-after) with `none`
when `ch` does not occur. -/
def splitOnChar (ch : Char) : Str → Str × Option Str
  | [] => ([], none)
  | c :: rest =>
    if c == ch then ([], some rest)
    else
      let r := splitOnChar ch rest
      (c :: r.1, r.2)

/-- Split at the first exponent marker `e`/`E`. -/
def splitOnExpChar : Str → Str × Option Str
  | [] => ([], none)
  | c :: rest =>
    if c == 'e' || c == 'E' then ([], some rest)
    else
      let r := splitOnExpChar rest
      (c :: r.1, r.2)

/-- Exponent part after `e`/`E`: optional sign then digits. -/
def parseExpPart (s : Str) : Option Int :=
  match s with
  | '+' :: rest => (parseDigitsStrict rest).map (fun n => (n : Int))
  | '-' :: rest => (parseDigitsStrict rest).map (fun n => -(n : Int))
  | rest => (parseDigitsStrict rest).map (fun n => (n : Int))

/-- Unsigned decimal mantissa: `digits`, `digits.digits?`, or `.digits`. -/
def parseDecMantissa (s : Str) : Option ℚ :=
  match splitOnChar '.' s with
  | (ip, none) => (parseDigitsStrict ip).map (fun n => (n : ℚ))
  | (ip, some fp) =>
    if ip = [] ∧ fp = [] then none
    else match (if ip = [] then some 0 else parseDigitsStrict ip),
               (if fp = [] then some 0 else parseDigitsStrict fp) with
      | some ni, some nf => some ((ni : ℚ) + (nf : ℚ) / ((10 : ℚ) ^ fp.length))
      | _, _ => none

/-- Unsigned decimal literal with optional exponent part. -/
def parseDecWithExp (s : Str) : Option ℚ :=
  match splitOnExpChar s with
  | (m, none) => parseDecMantissa m
  | (m, some es) =>
    match parseDecMantissa m, parseExpPart es with
    | some q, some e => some (q * (10 : ℚ) ^ e)
    | _, _ => none

/-- A signed decimal literal or `Infinity`, after the sign was consumed. -/
def signedDec (neg : Bool) (rest : Str) : JsNum :=
  if rest = "Infinity".toList then .inf neg
  else match parseDecWithExp rest with
    | some q => .val (if neg then -q else q)
    | none => .nan

/-- ECMAScript StringToNumber, the conversion `Number(resp.errCode)` performs:
trimmed empty string is 0; `0x`/`0o`/`0b` radix literals (unsigned only);
otherwise an optionally signed decimal literal or `Infinity`; anything
else is NaN. -/
def jsStrToNum (s0 : Str) : JsNum :=
  let s := trimJsWhite s0
  if s = [] then .val 0
  else if listStartsWith "0x".toList s || listStartsWith "0X".toList s then
    match parseRadixDigits 16 (s.drop 2) with
    | some n => .val (n : ℚ)
    | none => .nan
  else if listStartsWith "0o".toList s || listStartsWith "0O".toList s then
    match parseRadixDigits 8 (s.drop 2) with
    | some n => .val (n : ℚ)
    | none => .nan
  else if listStartsWith "0b".toList s || listStartsWith "0B".toList s then
    match parseRadixDigits 2 (s.drop 2) with
    | some n => .val (n : ℚ)
    | none => .nan
  else
    match s with
    | '+' :: rest => signedDec false rest
    | '-' :: rest => signedDec true rest
    | rest => signedDec false rest

/-- A raw row from the spreadsheet/CSV: a string-keyed map of cell values
(from `XLSX.utils.sheet_to_json` with empty-string defaults). -/
abbrev Row := List (Str × Str)

/-- Header aliases for the card-holder name column. -/
def nameKeys : List String :=
  ["Card Name [Max 50]", "Card Name", "Name", "Employee Name", "Employee", "Nama"]

/-- Header aliases for the staff-number (employee ID) column. -/
def staffNoKeys : List String :=
  ["Staff No [Max 15]", "Staff No. [Max 10]", "Emp. No", "Employee ID", "ID", "NIK"]

/-- Header aliases for the card-number column. -/
def cardNoKeys : List String :=
  ["Card No #[Max 10]", "Card No [Max 10]", "Card No", "CardNo", "Card Number"]

/-- Header aliases for the department column. -/
def departmentKeys : List String :=
  ["Department [Max 50]", "Department", "Departement", "Dept"]

/-- Header aliases for the company column. -/
def companyKeys : List String := ["Company [Max 50]", "Company"]

/-- Header aliases for the email column. -/
def emailKeys : List String := ["Email [Max 50]", "Email", "Email Address"]

/-- Header aliases for the mobile-number column. -/
def mobileKeys : List String := ["Mobile No. [Max 20]", "Mobile No", "Phone"]

/-- Header aliases for the face access level column. -/
def faceAccessKeys : List String :=
  ["Face Access Level [Max 3]", "Face Access Level", "FaceAccessLevel"]

/-- Header aliases for the lift access level column. -/
def liftAccessKeys : List String :=
  ["Lift Access Level [Max 3]", "Lift Access Level", "LiftAccessLevel"]

/-- Header aliases for the access level column. -/
def accessLevelKeys : List String :=
  ["Access Level [Max 3]", "Access Level", "AccessLevel"]

/-- Header aliases for the MessHall column. -/
def messHallKeys : List String := ["MessHall", "Mess Hall"]

/-- JS `row[k1] || row[k2] || ...`: the first present, nonempty (truthy)
cell value among the candidate column names. -/
def firstTruthyVal (row : Row) : List String → Option Str
  | [] => none
  | k :: ks =>
    match assocLookup row k.toList with
    | some v => if v = [] then firstTruthyVal row ks else some v
    | none => firstTruthyVal row ks

/-- `s(row[k1] || ... || dflt)` — the utility `s` (trimming, defaulting)
applied to an alias chain ending in a string literal default. -/
def pickColD (row : Row) (keys : List String) (dflt : String) : Str :=
  trimJsWhite ((firstTruthyVal row keys).getD dflt.toList)

/-- `s(row[k1] || ... || row[kn])` — alias chain with no literal default
(an all-falsy chain gives the empty string). -/
def pickCol (row : Row) (keys : List String) : Str := pickColD row keys ""

/-- `DEFAULT_ACCESS_LEVEL` in the source. -/
def DEFAULT_ACCESS_LEVEL : Str := "00".toList

/-- `DEFAULT_FACE_ACCESS_LEVEL` in the source. -/
def DEFAULT_FACE_ACCESS_LEVEL : Str := "00".toList

/-- `DEFAULT_LIFT_ACCESS_LEVEL` in the source. -/
def DEFAULT_LIFT_ACCESS_LEVEL : Str := "00".toList

/-- The canonical CardProfile built by `mapRowToProfile`: exactly the fields
that function returns (fields the envelope reads but the mapper never sets,
such as CardPinNo, are absent on every profile of this program and
serialize as empty). -/
structure CardProfile where
  CardNo : Str
  StaffNo : Str
  Name : Str
  Department : Str
  Company : Str
  AccessLevel : Str
  FaceAccessLevel : Str
  LiftAccessLevel : Str
  Email : Str
  MobileNo : Str
  ActiveStatus : Str
  NonExpired : Str
  ExpiredDate : Str
  DownloadCard : Str
  Photo : Option Str
deriving DecidableEq

/-- `mapRowToProfile(row)`: map one raw row into the Vault AddCard payload
fields, resolving header aliases, deriving AccessLevel from MessHall when
blank, defaulting the access levels to "00", and truncating CardNo to 10
characters. -/
def mapRowToProfile (row : Row) : CardProfile :=
  let name := pickCol row nameKeys
  let staffNoRaw := pickCol row staffNoKeys
  let cardNoRaw := pickCol row cardNoKeys
  let department := pickCol row departmentKeys
  let company := pickColD row companyKeys "Merdeka Tsingsan Indonesia"
  let email := pickColD row emailKeys ""
  let mobile := pickColD row mobileKeys ""
  let faceAccessLevel0 := pickColD row faceAccessKeys ""
  let faceAccessLevel := if faceAccessLevel0 = [] then DEFAULT_FACE_ACCESS_LEVEL else faceAccessLevel0
  let liftAccessLevel0 := pickColD row liftAccessKeys ""
  let liftAccessLevel := if liftAccessLevel0 = [] then DEFAULT_LIFT_ACCESS_LEVEL else liftAccessLevel0
  let accessLevel0 := pickCol row accessLevelKeys
  let messHallRaw := pickColD row messHallKeys ""
  let messHall := trimJsWhite (jsLower messHallRaw)
  let accessLevel1 :=
    if accessLevel0 = [] then
      if messHall = "labota".toList then "1".toList
      else if messHall = "makarti".toList then "2".toList
      else if messHall = [] ∨ messHall = "no access!!".toList then []
      else []
    else accessLevel0
  let accessLevel := if accessLevel1 = [] then DEFAULT_ACCESS_LEVEL else accessLevel1
  let cardNo := (jsOrStr cardNoRaw []).take 10
  { CardNo := cardNo
    StaffNo := staffNoRaw
    Name := name
    Department := department
    Company := company
    AccessLevel := accessLevel
    FaceAccessLevel := faceAccessLevel
    LiftAccessLevel := liftAccessLevel
    Email := email
    MobileNo := mobile
    ActiveStatus := "true".toList
    NonExpired := "true".toList
    ExpiredDate := []
    DownloadCard := "true".toList
    Photo := none }

/-- One global-regex single-character replace, `s.replace(/c/g, rep)`. -/
def replaceChar (c : Char) (rep : Str) (s : Str) : Str :=
  s.foldr (fun d acc => (if d = c then rep else [d]) ++ acc) []

/-- `escapeXml`: the five chained global replaces, ampersand first. -/
def escapeXml (u : Str) : Str :=
  replaceChar '\'' "&apos;".toList
    (replaceChar '"' "&quot;".toList
      (replaceChar '>' "&gt;".toList
        (replaceChar '<' "&lt;".toList
          (replaceChar '&' "&amp;".toList u))))

/-- The SOAP envelope namespace chosen by `buildAddCardEnvelope` for the
configured version. -/
def soapEnvNsFor (soapVersion : Str) : Str :=
  if soapVersion = "1.2".toList then "http://www.w3.org/2003/05/soap-envelope".toList
  else "http://schemas.xmlsoap.org/soap/envelope/".toList

/-- The Photo element: a populated element for a truthy (nonempty) photo,
otherwise the self-closing `<Photo />`. -/
def photoTagOf (photo : Option Str) : Str :=
  match photo with
  | some ph => if ph = [] then "<Photo />".toList else "<Photo>".toList ++ escapeXml ph ++ "</Photo>".toList
  | none => "<Photo />".toList

/-- The envelope text that precedes the Photo element. -/
def envelopeBeforePhoto (profile : CardProfile) (ns soapVersion : Str) : Str :=
  "<?xml version=\"1.0\" encoding=\"utf-8\"?>\n<soap:Envelope xmlns:xsi=\"http://www.w3.org/2001/XMLSchema-instance\" xmlns:xsd=\"http://www.w3.org/2001/XMLSchema\" xmlns:soap=\"".toList ++
  soapEnvNsFor soapVersion ++
  "\">\n  <soap:Body>\n    <AddCard xmlns=\"".toList ++ ns ++
  "\">\n      <CardProfile>\n        <CardNo>".toList ++ escapeXml profile.CardNo ++
  "</CardNo>\n        <Name>".toList ++ escapeXml profile.Name ++
  "</Name>\n        <CardPinNo>".toList ++ escapeXml [] ++
  "</CardPinNo>\n        <CardType>".toList ++ escapeXml [] ++
  "</CardType>\n        <Department>".toList ++ escapeXml profile.Department ++
  "</Department>\n        <Company>".toList ++ escapeXml profile.Company ++
  "</Company>\n        <Gentle>".toList ++ escapeXml [] ++
  "</Gentle>\n        <AccessLevel>".toList ++ escapeXml profile.AccessLevel ++
  "</AccessLevel>\n        <FaceAccessLevel>".toList ++ escapeXml profile.FaceAccessLevel ++
  "</FaceAccessLevel>\n        <LiftAccessLevel>".toList ++ escapeXml (jsOrStr profile.LiftAccessLevel []) ++
  "</LiftAccessLevel>\n        <BypassAP>".toList ++ escapeXml "false".toList ++
  "</BypassAP>\n        <ActiveStatus>".toList ++ escapeXml profile.ActiveStatus ++
  "</ActiveStatus>\n        <NonExpired>".toList ++ escapeXml profile.NonExpired ++
  "</NonExpired>\n        <ExpiredDate>".toList ++ escapeXml profile.ExpiredDate ++
  "</ExpiredDate>\n        <VehicleNo>".toList ++ escapeXml [] ++
  "</VehicleNo>\n        <FloorNo>".toList ++ escapeXml [] ++
  "</FloorNo>\n        <UnitNo>".toList ++ escapeXml [] ++
  "</UnitNo>\n        <ParkingNo>".toList ++ escapeXml [] ++
  "</ParkingNo>\n        <StaffNo>".toList ++ escapeXml (jsOrStr profile.StaffNo []) ++
  "</StaffNo>\n        <Title>".toList ++ escapeXml [] ++
  "</Title>\n        <Position>".toList ++ escapeXml [] ++
  "</Position>\n        <NRIC>".toList ++ escapeXml [] ++
  "</NRIC>\n        <Passport>".toList ++ escapeXml [] ++
  "</Passport>\n        <Race>".toList ++ escapeXml [] ++
  "</Race>\n        <DOB>".toList ++ escapeXml [] ++
  "</DOB>\n        <JoiningDate>".toList ++ escapeXml [] ++
  "</JoiningDate>\n        <ResignDate>".toList ++ escapeXml [] ++
  "</ResignDate>\n        <Address1>".toList ++ escapeXml [] ++
  "</Address1>\n        <Address2>".toList ++ escapeXml [] ++
  "</Address2>\n        <PostalCode>".toList ++ escapeXml [] ++
  "</PostalCode>\n        <City>".toList ++ escapeXml [] ++
  "</City>\n        <State>".toList ++ escapeXml [] ++
  "</State>\n        <Email>".toList ++ escapeXml profile.Email ++
  "</Email>\n        <MobileNo>".toList ++ escapeXml profile.MobileNo ++
  "</MobileNo>\n        ".toList

/-- The envelope text that follows the Photo element. -/
def envelopeAfterPhoto (profile : CardProfile) : Str :=
  "\n        <DownloadCard>".toList ++ escapeXml profile.DownloadCard ++
  "</DownloadCard>\n      </CardProfile>\n    </AddCard>\n  </soap:Body>\n</soap:Envelope>".toList

/-- `buildAddCardEnvelope(profile, {namespace, soapVersion})`: serialize a
CardProfile into the AddCard SOAP request.  Fields absent from every mapped
profile (CardPinNo, CardType, ...) serialize as `escapeXml("")`; BypassAP
defaults to "false". -/
def buildAddCardEnvelope (profile : CardProfile) (ns soapVersion : Str) : Str :=
  envelopeBeforePhoto profile ns soapVersion ++ photoTagOf profile.Photo ++
  envelopeAfterPhoto profile

/-- The photo lookup directory: file name to the base64 encoding of the
file bytes (`fs.readFileSync(...).toString("base64")` — the engine only
ever uses the base64 form, so file contents are represented by it). -/
abbrev FS := List (Str × Str)

/-- `fs.existsSync`/`readFileSync` combined: the content of the named file
in the lookup directory, when it exists. -/
def fsLookup (fs : FS) (fname : Str) : Option Str := assocLookup fs fname

/-- The CardNo-based photo filename candidates, in order. -/
def cardNoCandidates (p : CardProfile) : List Str :=
  [p.CardNo ++ ".jpg".toList, p.CardNo ++ ".jpeg".toList, p.CardNo ++ ".png".toList]

/-- The StaffNo-based photo filename candidates, in order. -/
def staffNoCandidates (p : CardProfile) : List Str :=
  [p.StaffNo ++ ".jpg".toList, p.StaffNo ++ ".jpeg".toList, p.StaffNo ++ ".png".toList]

/-- The candidate list built by `tryAttachPhoto`: CardNo-based names when
CardNo is truthy, then StaffNo-based names when StaffNo is truthy. -/
def photoCandidates (p : CardProfile) : List Str :=
  (if p.CardNo ≠ [] then cardNoCandidates p else []) ++
  (if p.StaffNo ≠ [] then staffNoCandidates p else [])

/-- The loop over candidates: the first existing file, with its content. -/
def findFirstFile (fs : FS) : List Str → Option (Str × Str)
  | [] => none
  | f :: rest =>
    match fsLookup fs f with
    | some c => some (f, c)
    | none => findFirstFile fs rest

/-- `tryAttachPhoto(outputDir, profile)`: attach the first existing candidate
photo as base64 into `profile.Photo`; returns (hasPhoto, updated profile). -/
def tryAttachPhoto (fs : FS) (p : CardProfile) : Bool × CardProfile :=
  match findFirstFile fs (photoCandidates p) with
  | some (_, content) => (true, { p with Photo := some content })
  | none => (false, p)

/-- The parsed result `postAddCard` builds from the HTTP response. -/
structure SoapResp where
  status : Str
  httpStatus : Nat
  errCode : Option Str
  errMessage : Option Str
  cardId : Option Str
  raw : Str
deriving DecidableEq

/-- Is the HTTP status in [200, 300)?  (`res.ok`, and the business check.) -/
def http2xx (st : Nat) : Bool := decide (200 ≤ st) && decide (st < 300)

/-- The response-parsing part of `postAddCard`: tolerant tag scans over the
response text (the HTTP POST itself is abstracted by the oracle). -/
def postAddCardParse (st : Nat) (body : Str) : SoapResp :=
  { status := if http2xx st then "ok".toList else "error".toList
    httpStatus := st
    errCode := extractTag "ErrCode" body
    errMessage := extractTag "ErrMessage" body
    cardId := match extractTag "CardID" body with
      | some v => some v
      | none => extractTag "ID" body
    raw := body }

/-- `const errCodeNum = resp.errCode !== undefined ? Number(resp.errCode) : NaN`
followed by `errCodeNum === 0 || errCodeNum === 1`. -/
def errCodeOk (errCode : Option Str) : Bool :=
  match errCode with
  | some c =>
    match jsStrToNum c with
    | .val q => decide (q = 0) || decide (q = 1)
    | _ => false
  | none => false

/-- The outcome of one `fetch` POST: a response, or a thrown network error. -/
inductive HttpOutcome where
  | resp : Nat → Str → HttpOutcome
  | netErr : Str → HttpOutcome

/-- A caller-supplied per-row override, `{index, cardNo?, downloadCard?}`. -/
structure RowOverride where
  index : Nat
  cardNo : Option Str
  downloadCard : Option Bool
deriving DecidableEq

/-- The value stored in the override map for one index: the cardNo already
trimmed and truncated to 10 characters (`o.cardNo.trim().substring(0, 10)`). -/
structure OverrideVal where
  cardNo : Option Str
  downloadCard : Option Bool
deriving DecidableEq

/-- Processing of one override entry while building the override map. -/
def processOverride (o : RowOverride) : OverrideVal :=
  { cardNo := o.cardNo.map (fun c => (trimJsWhite c).take 10)
    downloadCard := o.downloadCard }

/-- The override map lookup: `Map.set` lets the last entry for an index win. -/
def lookupOverride (overrides : List RowOverride) (i : Nat) : Option OverrideVal :=
  ((overrides.filter (fun o => o.index = i)).getLast?).map processOverride

/-- Apply the override found for a row (if any): `cardNo`, when present,
replaces CardNo (`overrideItem.cardNo || ""`); `downloadCard`, when present,
replaces DownloadCard as "true"/"false". -/
def applyOverride (p : CardProfile) (ov : Option OverrideVal) : CardProfile :=
  match ov with
  | none => p
  | some o =>
    let p1 := match o.cardNo with
      | some c => { p with CardNo := jsOrStr c [] }
      | none => p
    match o.downloadCard with
    | some b => { p1 with DownloadCard := if b then "true".toList else "false".toList }
    | none => p1

/-- One entry of the batch result `errors[]` (optional fields absent on a
given error shape are `none`). -/
structure ErrEntry where
  code : Str
  message : Str
  cardNo : Option Str := none
  index : Option Nat := none
  name : Option Str := none
  errCode : Option Str := none
deriving DecidableEq

/-- One entry of the batch result `details[]`. -/
structure ExecDetail where
  cardNo : Str
  name : Str
  hasPhoto : Bool
  respCode : Option Str
  respMessage : Option Str
deriving DecidableEq

/-- Ghost record of one row terminal state (spec RowStatus):
success, failed, or skipped. -/
inductive RowFinal where
  | success : RowFinal
  | failed : RowFinal
  | skipped : RowFinal
deriving DecidableEq

/-- The batch-level aggregate `result` built by `registerJobToVault` /
`registerCsvPathToVault`, plus two ghost transcripts: the terminal state of
each processed row, and the `postAddCard` requests issued (row index and
the profile serialized into the envelope). -/
structure ExecResult where
  attempted : Nat
  registered : Nat
  withPhoto : Nat
  withoutPhoto : Nat
  errors : List ErrEntry
  details : List ExecDetail
  rowStates : List RowFinal
  calls : List (Nat × CardProfile)
deriving DecidableEq

/-- The initial (all-zero, all-empty) batch result. -/
def initExecResult : ExecResult :=
  { attempted := 0, registered := 0, withPhoto := 0, withoutPhoto := 0
    errors := [], details := [], rowStates := [], calls := [] }

/-- The `errors[]` entry for a missing card number. -/
def cardNoMissingErr (i : Nat) (nm : Str) : ErrEntry :=
  { code := "CARD_NO_MISSING".toList, message := "Card No is required".toList
    index := some i, name := some nm }

/-- The `details[]` entry for a missing card number. -/
def cardNoMissingDetail (nm : Str) : ExecDetail :=
  { cardNo := [], name := nm, hasPhoto := false
    respCode := some "CARD_NO_MISSING".toList
    respMessage := some "Card No is required".toList }

/-- The `errors[]` entry for a non-2xx HTTP response. -/
def httpErrorEntry (st : Nat) (cardNo : Str) : ErrEntry :=
  { code := "HTTP_ERROR".toList
    message := "HTTP ".toList ++ (toString st).toList
    cardNo := some cardNo }

/-- The `errors[]` entry for a 2xx response with a rejecting business code
(`resp.errMessage || "Unknown error"`). -/
def vaultErrorEntry (resp : SoapResp) (cardNo : Str) : ErrEntry :=
  { code := "VAULT_ERROR".toList
    message := jsOrStr (resp.errMessage.getD []) "Unknown error".toList
    errCode := resp.errCode
    cardNo := some cardNo }

/-- The `errors[]` entry for a thrown network error. -/
def requestFailedEntry (msg : Str) (cardNo : Str) : ErrEntry :=
  { code := "REQUEST_FAILED".toList, message := msg, cardNo := some cardNo }

/-- The `details[]` entry pushed after a response was received. -/
def respDetail (p : CardProfile) (hasPhoto : Bool) (resp : SoapResp) : ExecDetail :=
  { cardNo := p.CardNo, name := p.Name, hasPhoto := hasPhoto
    respCode := resp.errCode, respMessage := resp.errMessage }

/-- The profile of a row after mapping and override application. -/
def resolvedProfile (ov : Nat → Option OverrideVal) (i : Nat) (row : Row) : CardProfile :=
  applyOverride (mapRowToProfile row) (ov i)

/-- `hasPhoto` for a non-skipped row. -/
def rowHasPhoto (fs : FS) (ov : Nat → Option OverrideVal) (i : Nat) (row : Row) : Bool :=
  (tryAttachPhoto fs (resolvedProfile ov i row)).1

/-- The profile actually serialized and sent for a non-skipped row (after
photo attachment). -/
def sentProfile (fs : FS) (ov : Nat → Option OverrideVal) (i : Nat) (row : Row) : CardProfile :=
  (tryAttachPhoto fs (resolvedProfile ov i row)).2

/-- The net effect of one iteration of the row loop on the batch result:
what the iteration adds to each counter and appends to each list. -/
structure RowOutcome where
  registeredInc : Nat
  withPhotoInc : Nat
  withoutPhotoInc : Nat
  newErrors : List ErrEntry
  newDetails : List ExecDetail
  state : RowFinal
  newCalls : List (Nat × CardProfile)

/-- Merge one row outcome into the running batch result (`attempted` always
increments; the lists are append-only). -/
def applyOutcome (acc : ExecResult) (o : RowOutcome) : ExecResult :=
  { attempted := acc.attempted + 1
    registered := acc.registered + o.registeredInc
    withPhoto := acc.withPhoto + o.withPhotoInc
    withoutPhoto := acc.withoutPhoto + o.withoutPhotoInc
    errors := acc.errors ++ o.newErrors
    details := acc.details ++ o.newDetails
    rowStates := acc.rowStates ++ [o.state]
    calls := acc.calls ++ o.newCalls }

/-- The body of the row loop shared by `registerJobToVault` and
`registerCsvPathToVault` (the two loops are identical up to log text): map
the row, apply the override, skip with CARD_NO_MISSING when CardNo is
empty (no SOAP call), otherwise attach a photo, build + POST the envelope,
and classify the outcome (success / HTTP_ERROR / VAULT_ERROR, or
REQUEST_FAILED when `fetch` throws — the catch pushes no detail entry). -/
def rowOutcome (fs : FS) (oracle : Nat → HttpOutcome) (ov : Nat → Option OverrideVal)
    (i : Nat) (row : Row) : RowOutcome :=
  if (resolvedProfile ov i row).CardNo = [] then
    { registeredInc := 0, withPhotoInc := 0, withoutPhotoInc := 0
      newErrors := [cardNoMissingErr i (resolvedProfile ov i row).Name]
      newDetails := [cardNoMissingDetail (resolvedProfile ov i row).Name]
      state := .skipped, newCalls := [] }
  else
    match oracle i with
    | .netErr msg =>
      { registeredInc := 0
        withPhotoInc := if rowHasPhoto fs ov i row then 1 else 0
        withoutPhotoInc := if rowHasPhoto fs ov i row then 0 else 1
        newErrors := [requestFailedEntry msg (sentProfile fs ov i row).CardNo]
        newDetails := []
        state := .failed, newCalls := [(i, sentProfile fs ov i row)] }
    | .resp st body =>
      if http2xx st && errCodeOk (postAddCardParse st body).errCode then
        { registeredInc := 1
          withPhotoInc := if rowHasPhoto fs ov i row then 1 else 0
          withoutPhotoInc := if rowHasPhoto fs ov i row then 0 else 1
          newErrors := []
          newDetails := [respDetail (sentProfile fs ov i row) (rowHasPhoto fs ov i row) (postAddCardParse st body)]
          state := .success, newCalls := [(i, sentProfile fs ov i row)] }
      else if !http2xx st then
        { registeredInc := 0
          withPhotoInc := if rowHasPhoto fs ov i row then 1 else 0
          withoutPhotoInc := if rowHasPhoto fs ov i row then 0 else 1
          newErrors := [httpErrorEntry st (sentProfile fs ov i row).CardNo]
          newDetails := [respDetail (sentProfile fs ov i row) (rowHasPhoto fs ov i row) (postAddCardParse st body)]
          state := .failed, newCalls := [(i, sentProfile fs ov i row)] }
      else
        { registeredInc := 0
          withPhotoInc := if rowHasPhoto fs ov i row then 1 else 0
          withoutPhotoInc := if rowHasPhoto fs ov i row then 0 else 1
          newErrors := [vaultErrorEntry (postAddCardParse st body) (sentProfile fs ov i row).CardNo]
          newDetails := [respDetail (sentProfile fs ov i row) (rowHasPhoto fs ov i row) (postAddCardParse st body)]
          state := .failed, newCalls := [(i, sentProfile fs ov i row)] }

/-- One iteration of the row loop applied to the running result. -/
def registerStep (fs : FS) (oracle : Nat → HttpOutcome) (ov : Nat → Option OverrideVal)
    (i : Nat) (row : Row) (acc : ExecResult) : ExecResult :=
  applyOutcome acc (rowOutcome fs oracle ov i row)

/-- The indexed row loop `for (let i = 0; i < rows.length; i++)`. -/
def registerGo (fs : FS) (oracle : Nat → HttpOutcome) (ov : Nat → Option OverrideVal) :
    Nat → List Row → ExecResult → ExecResult
  | _, [], acc => acc
  | i, row :: rest, acc =>
    registerGo fs oracle ov (i + 1) rest (registerStep fs oracle ov i row acc)

/-- The row loop over an ingested row list, from the empty result. -/
def registerRows (rows : List Row) (overrides : List RowOverride) (fs : FS)
    (oracle : Nat → HttpOutcome) : ExecResult :=
  registerGo fs oracle (lookupOverride overrides) 0 rows initExecResult

/-- `registerJobToVault` (equally `registerCsvPathToVault`, whose body is the
same up to log text): the output-directory guard, the no-rows guard, then
the row loop.  Row ingestion itself (reading the workbook/CSV from disk) is
abstracted by the `rows` argument. -/
def registerJobToVault (outputDirExists : Bool) (outputDir : Str) (rows : List Row)
    (overrides : List RowOverride) (fs : FS) (oracle : Nat → HttpOutcome) : ExecResult :=
  if !outputDirExists then
    { initExecResult with
      errors := [{ code := "OUTPUT_NOT_FOUND".toList
                   message := "Output directory not found: ".toList ++ outputDir }] }
  else if rows = [] then
    { initExecResult with
      errors := [{ code := "NO_ROWS".toList
                   message := "No rows found in Excel/CSV outputs.".toList }] }
  else registerRows rows overrides fs oracle

/-- One entry of the preview result `details[]` (the richer preview shape:
raw source row and mapped profile included). -/
structure PreviewDetail where
  cardNo : Str
  name : Str
  department : Str
  staffNo : Str
  hasPhoto : Bool
  sourceRow : Row
  profile : CardProfile
deriving DecidableEq

/-- The preview aggregate, with the same ghost call transcript as the
execution result (the preview source never invokes `postAddCard`, so it
stays empty). -/
structure PreviewResult where
  attempted : Nat
  registered : Nat
  withPhoto : Nat
  withoutPhoto : Nat
  errors : List ErrEntry
  details : List PreviewDetail
  calls : List (Nat × CardProfile)
deriving DecidableEq

/-- The initial (all-zero, all-empty) preview result. -/
def initPreviewResult : PreviewResult :=
  { attempted := 0, registered := 0, withPhoto := 0, withoutPhoto := 0
    errors := [], details := [], calls := [] }

/-- The preview detail pushed for one row. -/
def previewDetailOf (fs : FS) (row : Row) : PreviewDetail :=
  let profile := (tryAttachPhoto fs (mapRowToProfile row)).2
  { cardNo := profile.CardNo
    name := profile.Name
    department := profile.Department
    staffNo := jsOrStr (pickCol row staffNoKeys) profile.CardNo
    hasPhoto := (tryAttachPhoto fs (mapRowToProfile row)).1
    sourceRow := row
    profile := profile }

/-- The body of the preview row loop: map, count, attach photo, record the
detail — no network call, no effect on `registered`. -/
def previewStep (fs : FS) (acc : PreviewResult) (row : Row) : PreviewResult :=
  let ap := tryAttachPhoto fs (mapRowToProfile row)
  { acc with
    attempted := acc.attempted + 1
    withPhoto := acc.withPhoto + (if ap.1 then 1 else 0)
    withoutPhoto := acc.withoutPhoto + (if ap.1 then 0 else 1)
    details := acc.details ++ [previewDetailOf fs row] }

/-- `previewJobToVault` (equally `previewCsvPathToVault`): guards, then the
Ingester→Mapper→PhotoResolver loop with zero SOAP calls. -/
def previewJobToVault (outputDirExists : Bool) (outputDir : Str) (rows : List Row)
    (fs : FS) : PreviewResult :=
  if !outputDirExists then
    { initPreviewResult with
      errors := [{ code := "OUTPUT_NOT_FOUND".toList
                   message := "Output directory not found: ".toList ++ outputDir }] }
  else if rows = [] then
    { initPreviewResult with
      errors := [{ code := "NO_ROWS".toList
                   message := "No rows found in Excel/CSV outputs.".toList }] }
  else rows.foldl (previewStep fs) initPreviewResult

/-- Did the ghost row state end failed or skipped? -/
def isFailedOrSkipped : RowFinal → Bool
  | .failed => true
  | .skipped => true
  | .success => false


theorem tryAttachPhoto_CardNo (fs : FS) (p : CardProfile) :
    ((tryAttachPhoto fs p).2).CardNo = p.CardNo := by
  unfold tryAttachPhoto
  split <;> rfl

theorem tryAttachPhoto_Name (fs : FS) (p : CardProfile) :
    ((tryAttachPhoto fs p).2).Name = p.Name := by
  unfold tryAttachPhoto
  split <;> rfl

theorem registerGo_append (fs : FS) (oracle : Nat → HttpOutcome)
    (ov : Nat → Option OverrideVal) (xs ys : List Row) :
    ∀ (i : Nat) (acc : ExecResult),
      registerGo fs oracle ov i (xs ++ ys) acc
        = registerGo fs oracle ov (i + xs.length) ys (registerGo fs oracle ov i xs acc) := by
  induction xs with
  | nil => intro i acc; simp [registerGo]
  | cons x xs ih =>
    intro i acc
    simp only [List.cons_append, registerGo, List.length_cons, List.append_eq]
    rw [ih]
    congr 1
    omega

theorem registerRows_take_succ (rows : List Row) (overrides : List RowOverride) (fs : FS)
    (oracle : Nat → HttpOutcome) (i : Nat) (hi : i < rows.length) :
    registerRows (rows.take (i + 1)) overrides fs oracle
      = registerStep fs oracle (lookupOverride overrides) i rows[i]
          (registerRows (rows.take i) overrides fs oracle) := by
  unfold registerRows
  rw [← List.take_concat_get' rows i hi, registerGo_append]
  have h2 : (rows.take i).length = i := by
    rw [List.length_take]; omega
  rw [h2]
  simp [registerGo]

theorem registerGo_inv (fs : FS) (oracle : Nat → HttpOutcome) (ov : Nat → Option OverrideVal)
    (P : ExecResult → Prop)
    (hstep : ∀ i row acc, P acc → P (registerStep fs oracle ov i row acc)) :
    ∀ (rows : List Row) (i : Nat) (acc : ExecResult), P acc → P (registerGo fs oracle ov i rows acc) := by
  intro rows
  induction rows with
  | nil => intro i acc h; exact h
  | cons row rest ih =>
    intro i acc h
    exact ih (i + 1) (registerStep fs oracle ov i row acc) (hstep i row acc h)

theorem registerGo_attempted (fs : FS) (oracle : Nat → HttpOutcome)
    (ov : Nat → Option OverrideVal) :
    ∀ (rows : List Row) (i : Nat) (acc : ExecResult),
      (registerGo fs oracle ov i rows acc).attempted = acc.attempted + rows.length := by
  intro rows
  induction rows with
  | nil => intro i acc; simp [registerGo]
  | cons row rest ih =>
    intro i acc
    simp only [registerGo, List.length_cons]
    rw [ih]
    simp [registerStep, applyOutcome]
    omega

theorem rowOutcome_registeredInc (fs : FS) (oracle : Nat → HttpOutcome)
    (ov : Nat → Option OverrideVal) (i : Nat) (row : Row) :
    (rowOutcome fs oracle ov i row).registeredInc
      = if (rowOutcome fs oracle ov i row).state = RowFinal.success then 1 else 0 := by
  unfold rowOutcome
  by_cases h1 : (resolvedProfile ov i row).CardNo = []
  · simp [h1]
  · simp only [h1, if_false, if_neg]
    cases h2 : oracle i with
    | netErr msg => simp
    | resp st body =>
      cases h4 : http2xx st with
      | false => simp [h4]
      | true =>
        cases h5 : errCodeOk (postAddCardParse st body).errCode with
        | true => simp [h4, h5]
        | false => simp [h4, h5]

theorem rowOutcome_errors_registered (fs : FS) (oracle : Nat → HttpOutcome)
    (ov : Nat → Option OverrideVal) (i : Nat) (row : Row) :
    (rowOutcome fs oracle ov i row).newErrors.length
      + (rowOutcome fs oracle ov i row).registeredInc = 1 := by
  unfold rowOutcome
  by_cases h1 : (resolvedProfile ov i row).CardNo = []
  · simp [h1]
  · simp only [h1, if_false, if_neg]
    cases h2 : oracle i with
    | netErr msg => simp
    | resp st body =>
      cases h4 : http2xx st with
      | false => simp [h4]
      | true =>
        cases h5 : errCodeOk (postAddCardParse st body).errCode with
        | true => simp [h4, h5]
        | false => simp [h4, h5]

theorem rowOutcome_details_reqfailed (fs : FS) (oracle : Nat → HttpOutcome)
    (ov : Nat → Option OverrideVal) (i : Nat) (row : Row) :
    (rowOutcome fs oracle ov i row).newDetails.length
      + ((rowOutcome fs oracle ov i row).newErrors.filter
          (fun e => e.code == "REQUEST_FAILED".toList)).length = 1 := by
  unfold rowOutcome
  by_cases h1 : (resolvedProfile ov i row).CardNo = []
  · simp [h1, cardNoMissingErr, List.filter]
  · simp only [h1, if_false, if_neg]
    cases h2 : oracle i with
    | netErr msg => simp [requestFailedEntry, List.filter]
    | resp st body =>
      cases h4 : http2xx st with
      | false => simp [h4, httpErrorEntry, vaultErrorEntry, List.filter]
      | true =>
        cases h5 : errCodeOk (postAddCardParse st body).errCode with
        | true => simp [h4, h5, httpErrorEntry, vaultErrorEntry, List.filter]
        | false => simp [h4, h5, httpErrorEntry, vaultErrorEntry, List.filter]

theorem rowOutcome_codes (fs : FS) (oracle : Nat → HttpOutcome)
    (ov : Nat → Option OverrideVal) (i : Nat) (row : Row) :
    ∀ e ∈ (rowOutcome fs oracle ov i row).newErrors,
      e.code = "CARD_NO_MISSING".toList ∨ e.code = "HTTP_ERROR".toList ∨
      e.code = "VAULT_ERROR".toList ∨ e.code = "REQUEST_FAILED".toList := by
  unfold rowOutcome
  by_cases h1 : (resolvedProfile ov i row).CardNo = []
  · simp [h1, cardNoMissingErr]
  · simp only [h1, if_false, if_neg]
    cases h2 : oracle i with
    | netErr msg => simp [requestFailedEntry]
    | resp st body =>
      cases h4 : http2xx st with
      | false => simp [h4, httpErrorEntry, vaultErrorEntry]
      | true =>
        cases h5 : errCodeOk (postAddCardParse st body).errCode with
        | true => simp [h4, h5, httpErrorEntry, vaultErrorEntry]
        | false => simp [h4, h5, httpErrorEntry, vaultErrorEntry]

theorem rowOutcome_calls (fs : FS) (oracle : Nat → HttpOutcome)
    (ov : Nat → Option OverrideVal) (i : Nat) (row : Row) :
    (rowOutcome fs oracle ov i row).newCalls = []
    ∨ ((rowOutcome fs oracle ov i row).newCalls = [(i, sentProfile fs ov i row)]
        ∧ (resolvedProfile ov i row).CardNo ≠ []) := by
  unfold rowOutcome
  by_cases h1 : (resolvedProfile ov i row).CardNo = []
  · simp [h1]
  · simp only [h1, if_false, if_neg]
    cases h2 : oracle i with
    | netErr msg => simp [h1]
    | resp st body =>
      cases h4 : http2xx st with
      | false => simp [h4, h1]
      | true =>
        cases h5 : errCodeOk (postAddCardParse st body).errCode with
        | true => simp [h4, h5, h1]
        | false => simp [h4, h5, h1]

theorem registerRows_attempted (rows : List Row) (overrides : List RowOverride) (fs : FS)
    (oracle : Nat → HttpOutcome) :
    (registerRows rows overrides fs oracle).attempted = rows.length := by
  unfold registerRows
  rw [registerGo_attempted]
  simp [initExecResult]

theorem registerRows_partition (rows : List Row) (overrides : List RowOverride) (fs : FS)
    (oracle : Nat → HttpOutcome) :
    (registerRows rows overrides fs oracle).attempted
      = (registerRows rows overrides fs oracle).registered
        + ((registerRows rows overrides fs oracle).rowStates.filter isFailedOrSkipped).length := by
  unfold registerRows
  apply registerGo_inv fs oracle (lookupOverride overrides)
    (fun r => r.attempted = r.registered + (r.rowStates.filter isFailedOrSkipped).length)
  · intro i row acc h
    simp only [registerStep, applyOutcome]
    rw [List.filter_append]
    have hinc := rowOutcome_registeredInc fs oracle (lookupOverride overrides) i row
    cases hs : (rowOutcome fs oracle (lookupOverride overrides) i row).state <;>
      simp [hs, isFailedOrSkipped] at hinc ⊢ <;> omega
  · rfl

theorem registerRows_errors_registered (rows : List Row) (overrides : List RowOverride)
    (fs : FS) (oracle : Nat → HttpOutcome) :
    (registerRows rows overrides fs oracle).errors.length
      + (registerRows rows overrides fs oracle).registered
      = (registerRows rows overrides fs oracle).attempted := by
  unfold registerRows
  apply registerGo_inv fs oracle (lookupOverride overrides)
    (fun r => r.errors.length + r.registered = r.attempted)
  · intro i row acc h
    simp only [registerStep, applyOutcome]
    have he := rowOutcome_errors_registered fs oracle (lookupOverride overrides) i row
    simp only [List.length_append]
    omega
  · rfl

theorem registerRows_details_reqfailed (rows : List Row) (overrides : List RowOverride)
    (fs : FS) (oracle : Nat → HttpOutcome) :
    (registerRows rows overrides fs oracle).details.length
      + ((registerRows rows overrides fs oracle).errors.filter
          (fun e => e.code == "REQUEST_FAILED".toList)).length
      = (registerRows rows overrides fs oracle).attempted := by
  unfold registerRows
  apply registerGo_inv fs oracle (lookupOverride overrides)
    (fun r => r.details.length
      + (r.errors.filter (fun e => e.code == "REQUEST_FAILED".toList)).length = r.attempted)
  · intro i row acc h
    simp only [registerStep, applyOutcome]
    have hd := rowOutcome_details_reqfailed fs oracle (lookupOverride overrides) i row
    rw [List.filter_append]
    simp only [List.length_append]
    omega
  · rfl

theorem registerRows_codes (rows : List Row) (overrides : List RowOverride) (fs : FS)
    (oracle : Nat → HttpOutcome) :
    ∀ e ∈ (registerRows rows overrides fs oracle).errors,
      e.code = "CARD_NO_MISSING".toList ∨ e.code = "HTTP_ERROR".toList ∨
      e.code = "VAULT_ERROR".toList ∨ e.code = "REQUEST_FAILED".toList := by
  unfold registerRows
  apply registerGo_inv fs oracle (lookupOverride overrides)
    (fun r => ∀ e ∈ r.errors,
      e.code = "CARD_NO_MISSING".toList ∨ e.code = "HTTP_ERROR".toList ∨
      e.code = "VAULT_ERROR".toList ∨ e.code = "REQUEST_FAILED".toList)
  · intro i row acc h
    simp only [registerStep, applyOutcome]
    intro e he
    rcases List.mem_append.mp he with h1 | h2
    · exact h e h1
    · exact rowOutcome_codes fs oracle (lookupOverride overrides) i row e h2
  · intro e he
    simp [initExecResult] at he

theorem previewFold_details (fs : FS) :
    ∀ (rows : List Row) (acc : PreviewResult),
      (rows.foldl (previewStep fs) acc).details
        = acc.details ++ rows.map (previewDetailOf fs) := by
  intro rows
  induction rows with
  | nil => intro acc; simp
  | cons r rest ih =>
    intro acc
    simp only [List.foldl_cons, List.map_cons, ih, previewStep]
    simp

theorem previewFold_registered (fs : FS) :
    ∀ (rows : List Row) (acc : PreviewResult),
      (rows.foldl (previewStep fs) acc).registered = acc.registered := by
  intro rows
  induction rows with
  | nil => intro acc; rfl
  | cons r rest ih =>
    intro acc
    simp only [List.foldl_cons, ih, previewStep]

theorem previewFold_calls (fs : FS) :
    ∀ (rows : List Row) (acc : PreviewResult),
      (rows.foldl (previewStep fs) acc).calls = acc.calls := by
  intro rows
  induction rows with
  | nil => intro acc; rfl
  | cons r rest ih =>
    intro acc
    simp only [List.foldl_cons, ih, previewStep]

theorem previewJobToVault_registered (d : Bool) (dir : Str) (rows : List Row) (fs : FS) :
    (previewJobToVault d dir rows fs).registered = 0 := by
  unfold previewJobToVault
  cases d with
  | false => rfl
  | true =>
    by_cases hr : rows = []
    · simp [hr, initPreviewResult]
    · simp only [hr, Bool.not_true, Bool.false_eq_true, if_false, if_neg]
      rw [previewFold_registered]
      rfl

theorem previewJobToVault_calls (d : Bool) (dir : Str) (rows : List Row) (fs : FS) :
    (previewJobToVault d dir rows fs).calls = [] := by
  unfold previewJobToVault
  cases d with
  | false => rfl
  | true =>
    by_cases hr : rows = []
    · simp [hr, initPreviewResult]
    · simp only [hr, Bool.not_true, Bool.false_eq_true, if_false, if_neg]
      rw [previewFold_calls]
      rfl

theorem mapRowToProfile_CardNo_le (row : Row) : (mapRowToProfile row).CardNo.length ≤ 10 := by
  show ((jsOrStr (pickCol row cardNoKeys) []).take 10).length ≤ 10
  exact List.length_take_le 10 _

theorem resolvedProfile_CardNo_le (overrides : List RowOverride) (i : Nat) (row : Row) :
    (resolvedProfile (lookupOverride overrides) i row).CardNo.length ≤ 10 := by
  unfold resolvedProfile
  cases hov : lookupOverride overrides i with
  | none => simpa [applyOverride] using mapRowToProfile_CardNo_le row
  | some o =>
    unfold lookupOverride at hov
    rcases Option.map_eq_some'.mp hov with ⟨o', _, rfl⟩
    unfold applyOverride processOverride
    cases hc : o'.cardNo with
    | none =>
      cases o'.downloadCard <;> simpa [hc] using mapRowToProfile_CardNo_le row
    | some c =>
      cases o'.downloadCard <;> simp only [hc, Option.map_some', jsOrStr] <;> split <;>
        simp [List.length_take_le]

theorem postAddCardParse_errCode (st : Nat) (body : Str) :
    (postAddCardParse st body).errCode = extractTag "ErrCode" body := rfl

theorem postAddCardParse_errMessage (st : Nat) (body : Str) :
    (postAddCardParse st body).errMessage = extractTag "ErrMessage" body := rfl

theorem http2xx_iff (st : Nat) : http2xx st = true ↔ (200 ≤ st ∧ st < 300) := by
  unfold http2xx
  simp

theorem errCodeOk_iff (c? : Option Str) :
    errCodeOk c? = true
      ↔ ∃ c, c? = some c ∧ (jsStrToNum c = JsNum.val 0 ∨ jsStrToNum c = JsNum.val 1) := by
  cases c? with
  | none => simp [errCodeOk]
  | some c =>
    cases hn : jsStrToNum c with
    | nan => simp [errCodeOk, hn]
    | inf b => simp [errCodeOk, hn]
    | val q => simp [errCodeOk, hn]

theorem bizSuccess_iff (st : Nat) (body : Str) :
    (http2xx st && errCodeOk (postAddCardParse st body).errCode) = true
      ↔ ((200 ≤ st ∧ st < 300)
          ∧ ∃ c, extractTag "ErrCode" body = some c
              ∧ (jsStrToNum c = JsNum.val 0 ∨ jsStrToNum c = JsNum.val 1)) := by
  rw [Bool.and_eq_true, http2xx_iff, postAddCardParse_errCode, errCodeOk_iff]

theorem registerStep_resp_shape (fs : FS) (oracle : Nat → HttpOutcome)
    (ov : Nat → Option OverrideVal) (i : Nat) (row : Row) (acc : ExecResult)
    (st : Nat) (body : Str)
    (hcard : ¬(resolvedProfile ov i row).CardNo = [])
    (hresp : oracle i = HttpOutcome.resp st body) :
    (registerStep fs oracle ov i row acc).registered
        = acc.registered
          + (if (http2xx st && errCodeOk (postAddCardParse st body).errCode) = true then 1 else 0)
    ∧ (registerStep fs oracle ov i row acc).errors
        = acc.errors
          ++ (if (http2xx st && errCodeOk (postAddCardParse st body).errCode) = true then []
              else if http2xx st = true then
                [vaultErrorEntry (postAddCardParse st body) (sentProfile fs ov i row).CardNo]
              else [httpErrorEntry st (sentProfile fs ov i row).CardNo])
    ∧ (registerStep fs oracle ov i row acc).details
        = acc.details
          ++ [respDetail (sentProfile fs ov i row) (rowHasPhoto fs ov i row) (postAddCardParse st body)]
    ∧ (registerStep fs oracle ov i row acc).rowStates
        = acc.rowStates
          ++ [if (http2xx st && errCodeOk (postAddCardParse st body).errCode) = true then
                RowFinal.success else RowFinal.failed]
    ∧ (registerStep fs oracle ov i row acc).calls = acc.calls ++ [(i, sentProfile fs ov i row)] := by
  unfold registerStep rowOutcome
  rw [hresp, if_neg hcard]
  cases h4 : http2xx st with
  | false =>
    cases h5 : errCodeOk (postAddCardParse st body).errCode <;> simp [applyOutcome, h4, h5]
  | true =>
    cases h5 : errCodeOk (postAddCardParse st body).errCode <;> simp [applyOutcome, h4, h5]

theorem registerStep_calls_nonskip (fs : FS) (oracle : Nat → HttpOutcome)
    (ov : Nat → Option OverrideVal) (i : Nat) (row : Row) (acc : ExecResult)
    (hcard : ¬(resolvedProfile ov i row).CardNo = []) :
    (registerStep fs oracle ov i row acc).calls = acc.calls ++ [(i, sentProfile fs ov i row)] := by
  unfold registerStep rowOutcome
  rw [if_neg hcard]
  cases h2 : oracle i with
  | netErr msg => simp [applyOutcome]
  | resp st body =>
    cases h4 : http2xx st <;>
      cases h5 : errCodeOk (postAddCardParse st body).errCode <;> simp [applyOutcome, h4, h5]

theorem registerRows_states_attempted (rows : List Row) (overrides : List RowOverride)
    (fs : FS) (oracle : Nat → HttpOutcome) :
    (registerRows rows overrides fs oracle).rowStates.length
      = (registerRows rows overrides fs oracle).attempted := by
  unfold registerRows
  apply registerGo_inv fs oracle (lookupOverride overrides)
    (fun r => r.rowStates.length = r.attempted)
  · intro i row acc h
    simp only [registerStep, applyOutcome]
    simp [h]
  · rfl

theorem registerRows_calls_bound (rows : List Row) (overrides : List RowOverride) (fs : FS)
    (oracle : Nat → HttpOutcome) :
    ∀ ip ∈ (registerRows rows overrides fs oracle).calls,
      ip.2.CardNo ≠ [] ∧ ip.2.CardNo.length ≤ 10 := by
  unfold registerRows
  apply registerGo_inv fs oracle (lookupOverride overrides)
    (fun r => ∀ ip ∈ r.calls, ip.2.CardNo ≠ [] ∧ ip.2.CardNo.length ≤ 10)
  · intro i row acc h ip hip
    simp only [registerStep, applyOutcome] at hip
    rcases List.mem_append.mp hip with h1 | h2
    · exact h ip h1
    · rcases rowOutcome_calls fs oracle (lookupOverride overrides) i row with hc | ⟨hc, hne⟩
      · rw [hc] at h2
        simp at h2
      · rw [hc] at h2
        simp only [List.mem_singleton] at h2
        subst h2
        refine ⟨?_, ?_⟩
        · show (sentProfile fs (lookupOverride overrides) i row).CardNo ≠ []
          unfold sentProfile
          rw [tryAttachPhoto_CardNo]
          exact hne
        · show (sentProfile fs (lookupOverride overrides) i row).CardNo.length ≤ 10
          unfold sentProfile
          rw [tryAttachPhoto_CardNo]
          exact resolvedProfile_CardNo_le overrides i row
  · intro ip hip
    simp [initExecResult] at hip

theorem findFirstFile_append (fs : FS) (xs ys : List Str) :
    findFirstFile fs (xs ++ ys)
      = match findFirstFile fs xs with
        | some r => some r
        | none => findFirstFile fs ys := by
  induction xs with
  | nil => simp [findFirstFile]
  | cons f rest ih =>
    simp only [List.cons_append, findFirstFile]
    cases fsLookup fs f <;> simp [ih]

theorem findFirstFile_lookup (fs : FS) :
    ∀ (l : List Str) (f c : Str), findFirstFile fs l = some (f, c) → fsLookup fs f = some c := by
  intro l
  induction l with
  | nil => intro f c h; cases h
  | cons g rest ih =>
    intro f c h
    unfold findFirstFile at h
    cases hg : fsLookup fs g with
    | some v =>
      rw [hg] at h
      simp only [Option.some.injEq, Prod.mk.injEq] at h
      rcases h with ⟨rfl, rfl⟩
      exact hg
    | none =>
      rw [hg] at h
      exact ih f c h

theorem findFirstFile_none (fs : FS) :
    ∀ (l : List Str), (∀ g ∈ l, fsLookup fs g = none) → findFirstFile fs l = none := by
  intro l
  induction l with
  | nil => intro _; rfl
  | cons g rest ih =>
    intro h
    unfold findFirstFile
    rw [h g (List.mem_cons_self g rest)]
    exact ih (fun x hx => h x (List.mem_cons_of_mem g hx))

theorem mapRowToProfile_Photo (row : Row) : (mapRowToProfile row).Photo = none := rfl

theorem buildAddCardEnvelope_noPhoto (p : CardProfile) (ns v : Str) (h : p.Photo = none) :
    List.IsInfix ("<Photo />".toList) (buildAddCardEnvelope p ns v) := by
  refine ⟨envelopeBeforePhoto p ns v, envelopeAfterPhoto p, ?_⟩
  unfold buildAddCardEnvelope photoTagOf
  rw [h]

/-- Sample row with card number C1 (used to instantiate theorems with
hypotheses at concrete inputs). -/
def wRowC1 : Row := [("Card No".toList, "C1".toList)]

/-- Sample empty row: every column absent, so the mapped CardNo is empty. -/
def wRowEmpty : Row := []

/-- Sample oracle: HTTP 200 with business code 0 for every row. -/
def wOracle200ok : Nat → HttpOutcome :=
  fun _ => HttpOutcome.resp 200 ("<ErrCode>0</ErrCode>".toList)

/-- Sample oracle: HTTP 200 with the two-character code "00" for every row. -/
def wOracle200code00 : Nat → HttpOutcome :=
  fun _ => HttpOutcome.resp 200 ("<ErrCode>00</ErrCode>".toList)

/-- Sample oracle: the fetch throws for every row. -/
def wOracleNet : Nat → HttpOutcome :=
  fun _ => HttpOutcome.netErr ("network down".toList)

/-- C3: at the end of every batch execution — any directory state, row
sequence, overrides, photo directory and response outcomes — `attempted`
equals `registered` plus the number of rows whose terminal state is failed
or skipped, and every processed row contributes exactly one terminal
state (`rowStates.length = attempted`), so each such row is counted
exactly once. -/
theorem C3_attempted_partition (d : Bool) (dir : Str) (rows : List Row)
    (overrides : List RowOverride) (fs : FS) (oracle : Nat → HttpOutcome) :
    (registerJobToVault d dir rows overrides fs oracle).attempted
      = (registerJobToVault d dir rows overrides fs oracle).registered
        + ((registerJobToVault d dir rows overrides fs oracle).rowStates.filter
            isFailedOrSkipped).length
    ∧ (registerJobToVault d dir rows overrides fs oracle).rowStates.length
      = (registerJobToVault d dir rows overrides fs oracle).attempted := by
  unfold registerJobToVault
  cases d with
  | false => exact ⟨rfl, rfl⟩
  | true =>
    by_cases hr : rows = []
    · simp [hr, initExecResult]
    · simp only [hr, Bool.not_true, Bool.false_eq_true, if_false, if_neg]
      exact ⟨registerRows_partition rows overrides fs oracle,
        registerRows_states_attempted rows overrides fs oracle⟩

/-- C4 (counterexample): one row with CardNo C1 whose fetch throws: the
batch records a REQUEST_FAILED entry in `errors[]` but pushes no `details[]`
entry at all for that row, refuting "recorded both into errors[] and into
that row's details[] entry". -/
theorem C4_counterexample :
    ((registerRows [wRowC1] [] [] wOracleNet).errors.map (fun e => e.code)
        = ["REQUEST_FAILED".toList])
    ∧ (registerRows [wRowC1] [] [] wOracleNet).details = [] := by decide

/-- C4 (amended): every row-level error is recorded into the batch's
`errors[]` (each non-registered row contributes exactly one entry, whose
code is CARD_NO_MISSING, HTTP_ERROR, VAULT_ERROR or REQUEST_FAILED), and a
`details[]` entry is pushed for every row except those that fail with
REQUEST_FAILED (the catch path records no detail); no row-level error
aborts the remaining rows: the loop always processes every row
(`attempted = rows.length`) and returns the aggregate counts. -/
theorem C4_amended_partial_failure (rows : List Row) (overrides : List RowOverride)
    (fs : FS) (oracle : Nat → HttpOutcome) :
    (registerRows rows overrides fs oracle).attempted = rows.length
    ∧ (registerRows rows overrides fs oracle).errors.length
        + (registerRows rows overrides fs oracle).registered
        = (registerRows rows overrides fs oracle).attempted
    ∧ (registerRows rows overrides fs oracle).details.length
        + ((registerRows rows overrides fs oracle).errors.filter
            (fun e => e.code == "REQUEST_FAILED".toList)).length
        = (registerRows rows overrides fs oracle).attempted
    ∧ (∀ e ∈ (registerRows rows overrides fs oracle).errors,
        e.code = "CARD_NO_MISSING".toList ∨ e.code = "HTTP_ERROR".toList ∨
        e.code = "VAULT_ERROR".toList ∨ e.code = "REQUEST_FAILED".toList) :=
  ⟨registerRows_attempted rows overrides fs oracle,
   registerRows_errors_registered rows overrides fs oracle,
   registerRows_details_reqfailed rows overrides fs oracle,
   registerRows_codes rows overrides fs oracle⟩

/-- C5: every mapped profile's CardNo has at most 10 characters, and every
profile handed to the Vault client (every entry of the call transcript,
after overrides and photo attachment) has a nonempty CardNo of at most 10
characters. -/
theorem C5_cardno_invariant :
    (∀ row : Row, (mapRowToProfile row).CardNo.length ≤ 10)
    ∧ (∀ (overrides : List RowOverride) (i : Nat) (row : Row),
         (resolvedProfile (lookupOverride overrides) i row).CardNo.length ≤ 10)
    ∧ (∀ (rows : List Row) (overrides : List RowOverride) (fs : FS)
         (oracle : Nat → HttpOutcome) (ip : Nat × CardProfile),
         ip ∈ (registerRows rows overrides fs oracle).calls →
           ip.2.CardNo ≠ [] ∧ ip.2.CardNo.length ≤ 10) :=
  ⟨mapRowToProfile_CardNo_le, resolvedProfile_CardNo_le,
   fun rows overrides fs oracle ip hip => registerRows_calls_bound rows overrides fs oracle ip hip⟩

/-- Sample row whose Access Level column explicitly holds "00". -/
def wRowAL00 : Row := [("Access Level".toList, "00".toList)]

/-- C6 (counterexample): a row whose Access Level column explicitly holds
"00" maps to AccessLevel "00" although the trimmed source value is nonempty
(and no MessHall value applies), refuting the claimed "exactly when"
equivalence. -/
theorem C6_counterexample :
    (mapRowToProfile wRowAL00).AccessLevel = "00".toList
    ∧ pickCol wRowAL00 accessLevelKeys ≠ []
    ∧ trimJsWhite (jsLower (pickColD wRowAL00 messHallKeys "")) = [] := by decide

/-- C6 (amended): AccessLevel equals the trimmed source value whenever that
value is nonempty (so an explicit "00" also yields "00"); when it is empty,
MessHall "labota" (case-insensitively, trimmed) gives "1", "makarti" gives
"2", and anything else — including blank and "no access!!" — derives blank
and falls back to "00".  FaceAccessLevel and LiftAccessLevel equal the
trimmed source value when nonempty and default to "00" when empty. -/
theorem C6_amended_access_levels (row : Row) :
    (mapRowToProfile row).AccessLevel
      = (if pickCol row accessLevelKeys ≠ [] then pickCol row accessLevelKeys
         else if trimJsWhite (jsLower (pickColD row messHallKeys "")) = "labota".toList then
           "1".toList
         else if trimJsWhite (jsLower (pickColD row messHallKeys "")) = "makarti".toList then
           "2".toList
         else "00".toList)
    ∧ (mapRowToProfile row).FaceAccessLevel
        = jsOrStr (pickColD row faceAccessKeys "") "00".toList
    ∧ (mapRowToProfile row).LiftAccessLevel
        = jsOrStr (pickColD row liftAccessKeys "") "00".toList := by
  refine ⟨?_, ?_, ?_⟩
  · simp only [mapRowToProfile]
    split_ifs <;> simp_all [DEFAULT_ACCESS_LEVEL]
  · simp [mapRowToProfile, jsOrStr, DEFAULT_FACE_ACCESS_LEVEL]
  · simp [mapRowToProfile, jsOrStr, DEFAULT_LIFT_ACCESS_LEVEL]

/-- C7: applying a processed RowOverride to a profile changes at most CardNo
(to the trimmed override value truncated to 10 characters, possibly empty)
and DownloadCard (to "true"/"false" from the override boolean); all other
fields are unchanged, and re-applying the same override yields the same
profile (idempotence). -/
theorem C7_override_frame (p : CardProfile) (o : RowOverride) :
    ((applyOverride p (some (processOverride o))).StaffNo = p.StaffNo
      ∧ (applyOverride p (some (processOverride o))).Name = p.Name
      ∧ (applyOverride p (some (processOverride o))).Department = p.Department
      ∧ (applyOverride p (some (processOverride o))).Company = p.Company
      ∧ (applyOverride p (some (processOverride o))).AccessLevel = p.AccessLevel
      ∧ (applyOverride p (some (processOverride o))).FaceAccessLevel = p.FaceAccessLevel
      ∧ (applyOverride p (some (processOverride o))).LiftAccessLevel = p.LiftAccessLevel
      ∧ (applyOverride p (some (processOverride o))).Email = p.Email
      ∧ (applyOverride p (some (processOverride o))).MobileNo = p.MobileNo
      ∧ (applyOverride p (some (processOverride o))).ActiveStatus = p.ActiveStatus
      ∧ (applyOverride p (some (processOverride o))).NonExpired = p.NonExpired
      ∧ (applyOverride p (some (processOverride o))).ExpiredDate = p.ExpiredDate
      ∧ (applyOverride p (some (processOverride o))).Photo = p.Photo)
    ∧ (applyOverride p (some (processOverride o))).CardNo
        = (match o.cardNo with
           | some c => (trimJsWhite c).take 10
           | none => p.CardNo)
    ∧ (applyOverride p (some (processOverride o))).DownloadCard
        = (match o.downloadCard with
           | some b => if b then "true".toList else "false".toList
           | none => p.DownloadCard)
    ∧ applyOverride (applyOverride p (some (processOverride o))) (some (processOverride o))
        = applyOverride p (some (processOverride o)) := by
  unfold applyOverride processOverride
  cases hc : o.cardNo with
  | none =>
    cases hd : o.downloadCard <;> simp [jsOrStr]
  | some c =>
    cases hd : o.downloadCard <;>
      · simp only [Option.map_some', jsOrStr]
        split <;> simp_all

/-- C1: for any row whose CardNo is empty after mapping and override
application, the iteration for that row issues no `postAddCard` call (the
call transcript is unchanged), appends a CARD_NO_MISSING error carrying
the row index to `errors[]` and a `details[]` entry with cardNo "" and
respCode CARD_NO_MISSING, increments `attempted` by one, leaves
`registered` unchanged, marks the row skipped, and the loop still
processes every row of the batch (`attempted = rows.length`). -/
theorem C1_card_no_missing_skips (rows : List Row) (overrides : List RowOverride)
    (fs : FS) (oracle : Nat → HttpOutcome) (i : Nat) (hi : i < rows.length)
    (hempty : (resolvedProfile (lookupOverride overrides) i rows[i]).CardNo = []) :
    (registerRows (rows.take (i + 1)) overrides fs oracle).calls
      = (registerRows (rows.take i) overrides fs oracle).calls
    ∧ (registerRows (rows.take (i + 1)) overrides fs oracle).attempted
      = (registerRows (rows.take i) overrides fs oracle).attempted + 1
    ∧ (registerRows (rows.take (i + 1)) overrides fs oracle).registered
      = (registerRows (rows.take i) overrides fs oracle).registered
    ∧ (registerRows (rows.take (i + 1)) overrides fs oracle).errors
      = (registerRows (rows.take i) overrides fs oracle).errors
        ++ [cardNoMissingErr i (resolvedProfile (lookupOverride overrides) i rows[i]).Name]
    ∧ (registerRows (rows.take (i + 1)) overrides fs oracle).details
      = (registerRows (rows.take i) overrides fs oracle).details
        ++ [cardNoMissingDetail (resolvedProfile (lookupOverride overrides) i rows[i]).Name]
    ∧ (registerRows (rows.take (i + 1)) overrides fs oracle).rowStates
      = (registerRows (rows.take i) overrides fs oracle).rowStates ++ [RowFinal.skipped]
    ∧ (registerRows rows overrides fs oracle).attempted = rows.length := by
  rw [registerRows_take_succ rows overrides fs oracle i hi]
  refine ⟨?_, ?_, ?_, ?_, ?_, ?_, registerRows_attempted rows overrides fs oracle⟩ <;>
    · unfold registerStep rowOutcome
      rw [if_pos hempty]
      simp [applyOutcome]

theorem C1_card_no_missing_skips_witness :
    0 < ([wRowEmpty] : List Row).length
    ∧ (resolvedProfile (lookupOverride []) 0 wRowEmpty).CardNo = []
    ∧ (registerRows ([wRowEmpty].take (0 + 1)) [] [] wOracle200ok).registered
        = (registerRows ([wRowEmpty].take 0) [] [] wOracle200ok).registered
    ∧ (registerRows ([wRowEmpty].take (0 + 1)) [] [] wOracle200ok).calls
        = (registerRows ([wRowEmpty].take 0) [] [] wOracle200ok).calls :=
  ⟨by decide, by decide,
   (C1_card_no_missing_skips [wRowEmpty] [] [] wOracle200ok 0 (by decide) (by decide)).2.2.1,
   (C1_card_no_missing_skips [wRowEmpty] [] [] wOracle200ok 0 (by decide) (by decide)).1⟩

/-- C2 (counterexample): one row with CardNo C1 and a 2xx response whose
error code is the two-character string "00" — not exactly "0" or "1" — is
nevertheless counted as registered and records no VAULT_ERROR, because the
code compares `Number(errCode)` numerically. -/
theorem C2_counterexample :
    (registerRows [wRowC1] [] [] wOracle200code00).registered = 1
    ∧ (registerRows [wRowC1] [] [] wOracle200code00).errors = []
    ∧ extractTag "ErrCode" ("<ErrCode>00</ErrCode>".toList) = some ("00".toList)
    ∧ "00".toList ≠ "0".toList ∧ "00".toList ≠ "1".toList := by decide

/-- C2 (amended): for an executed row that receives a response, `registered`
increments exactly when the HTTP status is in [200,300) and the extracted
error-code string converts, under JS `Number()`, to exactly 0 or 1 (so
"00", "", " 1 ", "1e0" and the like also count as success, and an absent
code — NaN — never does); otherwise a non-2xx status appends an HTTP_ERROR
entry and a 2xx rejection appends a VAULT_ERROR entry. -/
theorem C2_amended_classification (rows : List Row) (overrides : List RowOverride)
    (fs : FS) (oracle : Nat → HttpOutcome) (i : Nat) (hi : i < rows.length)
    (hcard : ¬(resolvedProfile (lookupOverride overrides) i rows[i]).CardNo = [])
    (st : Nat) (body : Str) (hresp : oracle i = HttpOutcome.resp st body) :
    ((registerRows (rows.take (i + 1)) overrides fs oracle).registered
        = (registerRows (rows.take i) overrides fs oracle).registered + 1
      ↔ ((200 ≤ st ∧ st < 300)
          ∧ ∃ c, extractTag "ErrCode" body = some c
              ∧ (jsStrToNum c = JsNum.val 0 ∨ jsStrToNum c = JsNum.val 1)))
    ∧ (¬(200 ≤ st ∧ st < 300) →
        (registerRows (rows.take (i + 1)) overrides fs oracle).errors
          = (registerRows (rows.take i) overrides fs oracle).errors
            ++ [httpErrorEntry st
                  (sentProfile fs (lookupOverride overrides) i rows[i]).CardNo])
    ∧ ((200 ≤ st ∧ st < 300) →
        ¬(∃ c, extractTag "ErrCode" body = some c
            ∧ (jsStrToNum c = JsNum.val 0 ∨ jsStrToNum c = JsNum.val 1)) →
        (registerRows (rows.take (i + 1)) overrides fs oracle).errors
          = (registerRows (rows.take i) overrides fs oracle).errors
            ++ [vaultErrorEntry (postAddCardParse st body)
                  (sentProfile fs (lookupOverride overrides) i rows[i]).CardNo]) := by
  have hs := registerStep_resp_shape fs oracle (lookupOverride overrides) i rows[i]
    (registerRows (rows.take i) overrides fs oracle) st body hcard hresp
  rw [registerRows_take_succ rows overrides fs oracle i hi]
  refine ⟨?_, ?_, ?_⟩
  · rw [hs.1]
    by_cases hb : (http2xx st && errCodeOk (postAddCardParse st body).errCode) = true
    · rw [if_pos hb]
      exact iff_of_true rfl ((bizSuccess_iff st body).mp hb)
    · rw [if_neg hb]
      refine iff_of_false (by omega) ?_
      intro hcontra
      exact hb ((bizSuccess_iff st body).mpr hcontra)
  · intro hn2xx
    rw [hs.2.1]
    have hb : ¬(http2xx st && errCodeOk (postAddCardParse st body).errCode) = true :=
      fun hb => hn2xx ((bizSuccess_iff st body).mp hb).1
    have h4 : ¬http2xx st = true := fun h => hn2xx ((http2xx_iff st).mp h)
    rw [if_neg hb, if_neg h4]
  · intro h2xx hnc
    rw [hs.2.1]
    have hb : ¬(http2xx st && errCodeOk (postAddCardParse st body).errCode) = true :=
      fun hb => hnc ((bizSuccess_iff st body).mp hb).2
    have h4 : http2xx st = true := (http2xx_iff st).mpr h2xx
    rw [if_neg hb, if_pos h4]

theorem C2_amended_classification_witness :
    (registerRows ([wRowC1].take (0 + 1)) [] [] wOracle200ok).registered
      = (registerRows ([wRowC1].take 0) [] [] wOracle200ok).registered + 1 :=
  (C2_amended_classification [wRowC1] [] [] wOracle200ok 0 (by decide) (by decide) 200
      ("<ErrCode>0</ErrCode>".toList) rfl).1.mpr
    ⟨by decide, "0".toList, by decide, Or.inl (by decide)⟩

/-- Sample oracle: HTTP 200 whose body carries no ErrCode tag. -/
def wOracle200noCode : Nat → HttpOutcome :=
  fun _ => HttpOutcome.resp 200 ("<Result>ok</Result>".toList)

/-- C10: for an executed row with a 2xx response whose body contains no
ErrCode tag, the extracted code is absent, classification is VAULT_ERROR
(the appended error entry carries errCode none, and its message defaults
to "Unknown error" when no ErrMessage tag is present either), `registered`
is unchanged, the row's `details[]` entry records respCode none, and the
row ends failed — a tolerant-scan miss is never treated as success. -/
theorem C10_no_errcode_vault_error (rows : List Row) (overrides : List RowOverride)
    (fs : FS) (oracle : Nat → HttpOutcome) (i : Nat) (hi : i < rows.length)
    (hcard : ¬(resolvedProfile (lookupOverride overrides) i rows[i]).CardNo = [])
    (st : Nat) (body : Str) (hresp : oracle i = HttpOutcome.resp st body)
    (h2xx : 200 ≤ st ∧ st < 300)
    (hnone : extractTag "ErrCode" body = none) :
    (registerRows (rows.take (i + 1)) overrides fs oracle).registered
      = (registerRows (rows.take i) overrides fs oracle).registered
    ∧ (registerRows (rows.take (i + 1)) overrides fs oracle).errors
      = (registerRows (rows.take i) overrides fs oracle).errors
        ++ [vaultErrorEntry (postAddCardParse st body)
              (sentProfile fs (lookupOverride overrides) i rows[i]).CardNo]
    ∧ (vaultErrorEntry (postAddCardParse st body)
        (sentProfile fs (lookupOverride overrides) i rows[i]).CardNo).errCode = none
    ∧ (extractTag "ErrMessage" body = none →
        (vaultErrorEntry (postAddCardParse st body)
          (sentProfile fs (lookupOverride overrides) i rows[i]).CardNo).message
          = "Unknown error".toList)
    ∧ (registerRows (rows.take (i + 1)) overrides fs oracle).details
      = (registerRows (rows.take i) overrides fs oracle).details
        ++ [respDetail (sentProfile fs (lookupOverride overrides) i rows[i])
              (rowHasPhoto fs (lookupOverride overrides) i rows[i]) (postAddCardParse st body)]
    ∧ (respDetail (sentProfile fs (lookupOverride overrides) i rows[i])
        (rowHasPhoto fs (lookupOverride overrides) i rows[i]) (postAddCardParse st body)).respCode
      = none
    ∧ (registerRows (rows.take (i + 1)) overrides fs oracle).rowStates
      = (registerRows (rows.take i) overrides fs oracle).rowStates ++ [RowFinal.failed] := by
  have hs := registerStep_resp_shape fs oracle (lookupOverride overrides) i rows[i]
    (registerRows (rows.take i) overrides fs oracle) st body hcard hresp
  have hec : (postAddCardParse st body).errCode = none := by
    rw [postAddCardParse_errCode, hnone]
  have hb : ¬(http2xx st && errCodeOk (postAddCardParse st body).errCode) = true := by
    rw [hec]
    simp [errCodeOk]
  have h4 : http2xx st = true := (http2xx_iff st).mpr h2xx
  rw [registerRows_take_succ rows overrides fs oracle i hi]
  refine ⟨?_, ?_, hec, ?_, ?_, hec, ?_⟩
  · rw [hs.1, if_neg hb]
    exact Nat.add_zero _
  · rw [hs.2.1, if_neg hb, if_pos h4]
  · intro hm
    show jsOrStr ((postAddCardParse st body).errMessage.getD []) ("Unknown error".toList)
      = "Unknown error".toList
    rw [postAddCardParse_errMessage, hm]
    rfl
  · exact hs.2.2.1
  · rw [hs.2.2.2.1, if_neg hb]

theorem C10_no_errcode_vault_error_witness :
    (registerRows ([wRowC1].take (0 + 1)) [] [] wOracle200noCode).registered
      = (registerRows ([wRowC1].take 0) [] [] wOracle200noCode).registered
    ∧ (vaultErrorEntry (postAddCardParse 200 ("<Result>ok</Result>".toList))
        (sentProfile [] (lookupOverride []) 0 wRowC1).CardNo).message
      = "Unknown error".toList :=
  ⟨(C10_no_errcode_vault_error [wRowC1] [] [] wOracle200noCode 0 (by decide) (by decide) 200
      ("<Result>ok</Result>".toList) rfl (by decide) (by decide)).1,
   (C10_no_errcode_vault_error [wRowC1] [] [] wOracle200noCode 0 (by decide) (by decide) 200
      ("<Result>ok</Result>".toList) rfl (by decide) (by decide)).2.2.2.1 (by decide)⟩

/-- C9: a preview run leaves `registered` at 0 and issues no `postAddCard`
call, and for every row to which the execution run would apply no override
(and which it would actually send, i.e. whose mapped CardNo is nonempty),
the preview's `details[i].profile` is exactly the photo-attached profile
the execution run serializes and sends for that row. -/
theorem C9_preview_refinement (dir : Str) (rows : List Row) (overrides : List RowOverride)
    (fs : FS) (oracle : Nat → HttpOutcome) (i : Nat) (hi : i < rows.length)
    (hov : lookupOverride overrides i = none)
    (hcard : ¬(mapRowToProfile rows[i]).CardNo = []) :
    (previewJobToVault true dir rows fs).registered = 0
    ∧ (previewJobToVault true dir rows fs).calls = []
    ∧ ((previewJobToVault true dir rows fs).details[i]?).map (fun d => d.profile)
        = some ((tryAttachPhoto fs (mapRowToProfile rows[i])).2)
    ∧ (registerRows (rows.take (i + 1)) overrides fs oracle).calls
        = (registerRows (rows.take i) overrides fs oracle).calls
          ++ [(i, (tryAttachPhoto fs (mapRowToProfile rows[i])).2)] := by
  have hrne : rows ≠ [] := by
    intro h
    rw [h] at hi
    simp at hi
  have hres : resolvedProfile (lookupOverride overrides) i rows[i] = mapRowToProfile rows[i] := by
    unfold resolvedProfile
    rw [hov]
    rfl
  have hsent : sentProfile fs (lookupOverride overrides) i rows[i]
      = (tryAttachPhoto fs (mapRowToProfile rows[i])).2 := by
    unfold sentProfile
    rw [hres]
  refine ⟨previewJobToVault_registered true dir rows fs,
          previewJobToVault_calls true dir rows fs, ?_, ?_⟩
  · unfold previewJobToVault
    simp only [Bool.not_true, Bool.false_eq_true, if_false, if_neg hrne]
    rw [previewFold_details]
    show ((initPreviewResult.details ++ rows.map (previewDetailOf fs))[i]?).map
      (fun d => d.profile) = _
    simp only [initPreviewResult, List.nil_append, List.getElem?_map,
      List.getElem?_eq_getElem hi]
    rfl
  · rw [registerRows_take_succ rows overrides fs oracle i hi]
    rw [registerStep_calls_nonskip fs oracle (lookupOverride overrides) i rows[i]
      (registerRows (rows.take i) overrides fs oracle) (by rw [hres]; exact hcard)]
    rw [hsent]

theorem C9_preview_refinement_witness :
    ((previewJobToVault true [] [wRowC1] []).details[0]?).map (fun d => d.profile)
      = some ((tryAttachPhoto [] (mapRowToProfile wRowC1)).2)
    ∧ (previewJobToVault true [] [wRowC1] []).registered = 0
    ∧ (previewJobToVault true [] [wRowC1] []).calls = [] :=
  ⟨(C9_preview_refinement [] [wRowC1] [] [] wOracle200ok 0 (by decide) (by decide)
      (by decide)).2.2.1,
   (C9_preview_refinement [] [wRowC1] [] [] wOracle200ok 0 (by decide) (by decide)
      (by decide)).1,
   (C9_preview_refinement [] [wRowC1] [] [] wOracle200ok 0 (by decide) (by decide)
      (by decide)).2.1⟩

/-- C8: photo resolution tries the six candidate filenames in the order
CardNo.jpg/.jpeg/.png then StaffNo.jpg/.jpeg/.png; a CardNo-based match
always takes priority, and the StaffNo-based candidates are consulted only
when every CardNo-based candidate is absent; the first existing file's
(base64) content is attached into Photo with hasPhoto true; when no
candidate exists, hasPhoto is false, the profile is returned unchanged (no
error), and the built envelope contains the self-closing Photo element. -/
theorem C8_photo_resolution :
    (∀ p : CardProfile, p.CardNo ≠ [] → p.StaffNo ≠ [] →
      photoCandidates p
        = [p.CardNo ++ ".jpg".toList, p.CardNo ++ ".jpeg".toList, p.CardNo ++ ".png".toList,
           p.StaffNo ++ ".jpg".toList, p.StaffNo ++ ".jpeg".toList, p.StaffNo ++ ".png".toList])
    ∧ (∀ (fs : FS) (p : CardProfile) (f c : Str), p.CardNo ≠ [] →
        findFirstFile fs (cardNoCandidates p) = some (f, c) →
        tryAttachPhoto fs p = (true, { p with Photo := some c }))
    ∧ (∀ (fs : FS) (p : CardProfile), (∀ g ∈ cardNoCandidates p, fsLookup fs g = none) →
        findFirstFile fs (photoCandidates p)
          = findFirstFile fs (if p.StaffNo ≠ [] then staffNoCandidates p else []))
    ∧ (∀ (fs : FS) (p : CardProfile) (f c : Str),
        findFirstFile fs (photoCandidates p) = some (f, c) →
        tryAttachPhoto fs p = (true, { p with Photo := some c }) ∧ fsLookup fs f = some c)
    ∧ (∀ (fs : FS) (row : Row) (ns v : Str),
        findFirstFile fs (photoCandidates (mapRowToProfile row)) = none →
        tryAttachPhoto fs (mapRowToProfile row) = (false, mapRowToProfile row)
        ∧ List.IsInfix ("<Photo />".toList)
            (buildAddCardEnvelope (mapRowToProfile row) ns v)) := by
  refine ⟨?_, ?_, ?_, ?_, ?_⟩
  · intro p h1 h2
    unfold photoCandidates cardNoCandidates staffNoCandidates
    rw [if_pos h1, if_pos h2]
    rfl
  · intro fs p f c h1 hfind
    unfold tryAttachPhoto photoCandidates
    rw [if_pos h1, findFirstFile_append, hfind]
  · intro fs p hnone
    unfold photoCandidates
    by_cases h1 : p.CardNo ≠ []
    · rw [if_pos h1, findFirstFile_append, findFirstFile_none fs _ hnone]
    · rw [if_neg h1, List.nil_append]
  · intro fs p f c hfind
    constructor
    · unfold tryAttachPhoto
      rw [hfind]
    · exact findFirstFile_lookup fs _ f c hfind
  · intro fs row ns v hfind
    constructor
    · unfold tryAttachPhoto
      rw [hfind]
    · exact buildAddCardEnvelope_noPhoto _ ns v (mapRowToProfile_Photo row)
